import Mathlib

/-!
Shallow embedding of src/src/compositor/cogl-utils.c (muffin compositor).

The file wraps the Cogl texture-creation API.  Its process-wide globals
(cogl_context, supports_npot, screen_width, screen_height, and the static
texture_material_template inside meta_create_texture_material) are modelled
as an explicit state record threaded through each function.  Calls into the
external libraries (Cogl, Clutter, GDK) are modelled by a read-only
environment of oracles together with an explicit trace of the external calls
a function performs, so that claims about which constructor is invoked, and
whether the cached queries re-run, are statable.  C gint values are modelled
as Int (no claim here exercises 32-bit wraparound); pointers/handles are Nat
with 0 standing for NULL / COGL_INVALID_HANDLE.
-/

/-- Cogl pixel formats, as far as this file mentions them.  Only the named
constants appearing in cogl-utils.c get dedicated constructors; every other
format is `other n`. -/
inductive CoglPixelFormat where
  | RGBA_8888_PRE
  | ANY
  | CAIRO_ARGB32
  | other (code : Nat)
deriving DecidableEq

/-- CoglColor at the byte level: cogl_color_set_from_4ub packs the four
channel bytes, cogl_color_get_red_byte and friends project them back. -/
structure CoglColor where
  red : Nat
  green : Nat
  blue : Nat
  alpha : Nat
deriving DecidableEq

/-- One external call performed by the wrappers.  backend_query stands for
clutter_get_default_backend + clutter_backend_get_cogl_context +
cogl_has_feature; screen_query for gdk_screen_get_default +
gdk_screen_get_width/height. -/
inductive ExtCall where
  | backend_query
  | screen_query
  | tex2d_new_from_data (ctx : Nat) (w h : Int) (fmt : CoglPixelFormat)
      (extra : Option CoglPixelFormat) (rowstride : Int) (data : List Nat)
  | tex_new_from_data (w h : Int) (flags : Nat) (fmt ifmt : CoglPixelFormat)
      (rowstride : Int) (data : List Nat)
  | tex2d_new_from_file (ctx : Nat) (filename : String)
      (extra : Option CoglPixelFormat)
  | tex_new_from_file (filename : String) (flags : Nat) (ifmt : CoglPixelFormat)
  | tex2d_new_with_size (ctx : Nat) (w h : Int) (extra : Option CoglPixelFormat)
  | tex_new_with_size (w h : Int) (flags : Nat) (ifmt : CoglPixelFormat)
  | material_new
  | material_copy (src : Nat)
  | material_set_layer (mat : Nat) (layer : Nat) (tex : Nat)
  | handle_unref (h : Nat)
  | error_free (msg : String)
deriving DecidableEq

/-- Read-only environment of external collaborators.  Each texture
constructor oracle returns the handle the library would hand back (0 for
NULL) and, where the C code passes a CoglError out-parameter, an optional
error message. -/
structure CoglEnv where
  backendCtx : Nat
  hasNPOT : Nat → Bool
  gdkWidth : Int
  gdkHeight : Int
  premultiply : CoglColor → CoglColor
  coglPre118 : Bool
  tex2dFromData : Nat → Int → Int → CoglPixelFormat → Int → List Nat → Nat × Option String
  texFromData : Int → Int → Nat → CoglPixelFormat → CoglPixelFormat → Int → List Nat → Nat
  tex2dFromFile : Nat → String → Nat × Option String
  texFromFile : String → Nat → CoglPixelFormat → Nat × Option String
  tex2dWithSize : Nat → Int → Int → Nat
  texWithSize : Int → Int → Nat → CoglPixelFormat → Nat

/-- The process-wide mutable globals of cogl-utils.c, plus the bookkeeping
for material-handle allocation: nextHandle is a fresh-handle counter for
cogl_material_new / cogl_material_copy, and matLayer0 records layer 0 of
each allocated material. -/
structure CoglUtilsState where
  cogl_context : Option Nat
  supports_npot : Bool
  screen_width : Int
  screen_height : Int
  texture_material_template : Option Nat
  nextHandle : Nat
  matLayer0 : Nat → Option Nat

/-- Result of hardware_supports_npot_sizes: the boolean, the updated
globals, and the external calls made. -/
structure NpotResult where
  supported : Bool
  state : CoglUtilsState
  calls : List ExtCall

/-- Result of clamp_sizes: the clamped in-out width/height, the updated
globals, and the external calls made. -/
structure ClampResult where
  width : Int
  height : Int
  state : CoglUtilsState
  calls : List ExtCall

/-- Result of a texture-creation wrapper: the returned texture handle, the
updated globals, the external calls made, and the meta_verbose log lines. -/
structure WrapperResult where
  texture : Nat
  state : CoglUtilsState
  calls : List ExtCall
  log : List String

/-- Result of meta_create_color_texture_4ub (touches no globals). -/
structure ColorTexResult where
  texture : Nat
  calls : List ExtCall

/-- Result of meta_create_texture_material. -/
structure MaterialResult where
  material : Nat
  state : CoglUtilsState
  calls : List ExtCall

def msg_from_data : String := "cogl_texture_2d_new_from_data failed: "

def msg_from_file : String := "cogl_texture_(2d)_new_from_file failed: "

/-- Trace entries of the error check following a constructor call:
cogl_error_free when an error was reported, nothing otherwise. -/
def errorCalls (o : Option String) : List ExtCall :=
  match o with
  | some msg => [ExtCall.error_free msg]
  | none => []

/-- Log lines of the error check: the meta_verbose line built from the
given constant text and the error message, when an error was reported. -/
def errorLog (text : String) (o : Option String) : List String :=
  match o with
  | some msg => [text ++ msg]
  | none => []

/-- hardware_supports_npot_sizes (cogl-utils.c lines 127-138): if the
context is already cached return the cached boolean, otherwise resolve the
backend context, query COGL_FEATURE_ID_TEXTURE_NPOT, and cache both. -/
def hardware_supports_npot_sizes (env : CoglEnv) (s : CoglUtilsState) : NpotResult :=
  match s.cogl_context with
  | some _ => { supported := s.supports_npot, state := s, calls := [] }
  | none =>
      let npot := env.hasNPOT env.backendCtx
      { supported := npot
        state := { s with cogl_context := some env.backendCtx, supports_npot := npot }
        calls := [ExtCall.backend_query] }

/-- clamp_sizes (cogl-utils.c lines 140-154): if screen_width is 0, query
the default screen and cache its width/height; then clamp the in-out width
and height to MIN of themselves and twice the cached dimensions. -/
def clamp_sizes (env : CoglEnv) (s : CoglUtilsState) (width height : Int) : ClampResult :=
  let s1 :=
    if s.screen_width = 0 then
      { s with screen_width := env.gdkWidth, screen_height := env.gdkHeight }
    else s
  { width := min width (s1.screen_width * 2)
    height := min height (s1.screen_height * 2)
    state := s1
    calls := if s.screen_width = 0 then [ExtCall.screen_query] else [] }

/-- meta_create_color_texture_4ub (cogl-utils.c lines 48-71): premultiply
the 4ub color, pack the premultiplied bytes into pixel[0..3] in RGBA order,
and call cogl_texture_new_from_data with size 1x1, the given flags, format
COGL_PIXEL_FORMAT_RGBA_8888_PRE, internal format COGL_PIXEL_FORMAT_ANY and
rowstride 4. -/
def meta_create_color_texture_4ub (env : CoglEnv)
    (red green blue alpha : Nat) (flags : Nat) : ColorTexResult :=
  let color := env.premultiply { red := red, green := green, blue := blue, alpha := alpha }
  let pixel := [color.red, color.green, color.blue, color.alpha]
  { texture := env.texFromData 1 1 flags CoglPixelFormat.RGBA_8888_PRE CoglPixelFormat.ANY 4 pixel
    calls := [ExtCall.tex_new_from_data 1 1 flags CoglPixelFormat.RGBA_8888_PRE
                CoglPixelFormat.ANY 4 pixel] }

/-- meta_create_texture_material (cogl-utils.c lines 88-116): lazily build
the static template (a new material whose layer 0 is a dummy white 1x1
texture from meta_create_color_texture_4ub, the dummy being unreffed
afterwards), copy the template, and if src_texture is not
COGL_INVALID_HANDLE replace layer 0 of the copy with it. -/
def meta_create_texture_material (env : CoglEnv) (s : CoglUtilsState)
    (src_texture : Nat) : MaterialResult :=
  let init :=
    match s.texture_material_template with
    | some _ => (s, ([] : List ExtCall))
    | none =>
        let dummy := meta_create_color_texture_4ub env 0xff 0xff 0xff 0xff 0
        let tmpl := s.nextHandle
        ({ s with
             nextHandle := s.nextHandle + 1
             texture_material_template := some tmpl
             matLayer0 := fun h => if h = tmpl then some dummy.texture else s.matLayer0 h },
         dummy.calls ++
           [ExtCall.material_new, ExtCall.material_set_layer tmpl 0 dummy.texture,
            ExtCall.handle_unref dummy.texture])
  let s1 := init.1
  let tmpl := s1.texture_material_template.getD 0
  let material := s1.nextHandle
  let s2 := { s1 with
                nextHandle := s1.nextHandle + 1
                matLayer0 := fun h => if h = material then s1.matLayer0 tmpl else s1.matLayer0 h }
  if src_texture ≠ 0 then
    { material := material
      state := { s2 with
                   matLayer0 := fun h => if h = material then some src_texture else s2.matLayer0 h }
      calls := init.2 ++ [ExtCall.material_copy tmpl,
                          ExtCall.material_set_layer material 0 src_texture] }
  else
    { material := material
      state := s2
      calls := init.2 ++ [ExtCall.material_copy tmpl] }

/-- meta_cogl_texture_new_from_data_wrapper (cogl-utils.c lines 164-207):
clamp the sizes, then dispatch on hardware_supports_npot_sizes: the NPOT
path calls cogl_texture_2d_new_from_data with the global context and the
explicit pixel format (plus COGL_PIXEL_FORMAT_ANY on Cogl before 1.18),
logging and freeing any reported CoglError; the legacy path calls
cogl_texture_new_from_data with flags, format and internal_format. -/
def meta_cogl_texture_new_from_data_wrapper (env : CoglEnv) (s : CoglUtilsState)
    (width height : Int) (flags : Nat) (format internal_format : CoglPixelFormat)
    (rowstride : Int) (data : List Nat) : WrapperResult :=
  let c := clamp_sizes env s width height
  let q := hardware_supports_npot_sizes env c.state
  if q.supported then
    let ctx := q.state.cogl_context.getD 0
    let res := env.tex2dFromData ctx c.width c.height format rowstride data
    { texture := res.1
      state := q.state
      calls := c.calls ++ q.calls ++
        [ExtCall.tex2d_new_from_data ctx c.width c.height format
           (if env.coglPre118 then some CoglPixelFormat.ANY else none) rowstride data] ++
        errorCalls res.2
      log := errorLog msg_from_data res.2 }
  else
    { texture := env.texFromData c.width c.height flags format internal_format rowstride data
      state := q.state
      calls := c.calls ++ q.calls ++
        [ExtCall.tex_new_from_data c.width c.height flags format internal_format
           rowstride data]
      log := [] }

/-- meta_cogl_texture_new_from_file_wrapper (cogl-utils.c lines 217-249):
no size clamping; dispatch on hardware_supports_npot_sizes between
cogl_texture_2d_new_from_file (context + filename) and the legacy
cogl_texture_new_from_file (filename + flags + internal_format).  Both
branches pass a CoglError out-parameter, checked once after the branch:
an error is logged via meta_verbose and freed. -/
def meta_cogl_texture_new_from_file_wrapper (env : CoglEnv) (s : CoglUtilsState)
    (filename : String) (flags : Nat) (internal_format : CoglPixelFormat) : WrapperResult :=
  let q := hardware_supports_npot_sizes env s
  let res :=
    if q.supported then
      let ctx := q.state.cogl_context.getD 0
      (env.tex2dFromFile ctx filename,
       ExtCall.tex2d_new_from_file ctx filename
         (if env.coglPre118 then some CoglPixelFormat.ANY else none))
    else
      (env.texFromFile filename flags internal_format,
       ExtCall.tex_new_from_file filename flags internal_format)
  { texture := res.1.1
    state := q.state
    calls := q.calls ++ [res.2] ++ errorCalls res.1.2
    log := errorLog msg_from_file res.1.2 }

/-- meta_cogl_texture_new_with_size_wrapper (cogl-utils.c lines 259-287):
clamp the sizes, then dispatch on hardware_supports_npot_sizes between
cogl_texture_2d_new_with_size (context + sizes, plus
CLUTTER_CAIRO_FORMAT_ARGB32 on Cogl before 1.18) and the legacy
cogl_texture_new_with_size (sizes + flags + internal_format).  No error
out-parameter on either branch. -/
def meta_cogl_texture_new_with_size_wrapper (env : CoglEnv) (s : CoglUtilsState)
    (width height : Int) (flags : Nat) (internal_format : CoglPixelFormat) : WrapperResult :=
  let c := clamp_sizes env s width height
  let q := hardware_supports_npot_sizes env c.state
  if q.supported then
    { texture := env.tex2dWithSize (q.state.cogl_context.getD 0) c.width c.height
      state := q.state
      calls := c.calls ++ q.calls ++
        [ExtCall.tex2d_new_with_size (q.state.cogl_context.getD 0) c.width c.height
           (if env.coglPre118 then some CoglPixelFormat.CAIRO_ARGB32 else none)]
      log := [] }
  else
    { texture := env.texWithSize c.width c.height flags internal_format
      state := q.state
      calls := c.calls ++ q.calls ++
        [ExtCall.tex_new_with_size c.width c.height flags internal_format]
      log := [] }

/-- Classifies the external calls that are texture constructors. -/
def ExtCall.isTexConstructor : ExtCall → Bool
  | .tex2d_new_from_data .. => true
  | .tex_new_from_data .. => true
  | .tex2d_new_from_file .. => true
  | .tex_new_from_file .. => true
  | .tex2d_new_with_size .. => true
  | .tex_new_with_size .. => true
  | _ => false

/-- Width argument of a texture-constructor call, if it has one. -/
def ExtCall.texWidth : ExtCall → Option Int
  | .tex2d_new_from_data _ w _ _ _ _ _ => some w
  | .tex_new_from_data w _ _ _ _ _ _ => some w
  | .tex2d_new_with_size _ w _ _ => some w
  | .tex_new_with_size w _ _ _ => some w
  | _ => none

/-- Height argument of a texture-constructor call, if it has one. -/
def ExtCall.texHeight : ExtCall → Option Int
  | .tex2d_new_from_data _ _ h _ _ _ _ => some h
  | .tex_new_from_data _ h _ _ _ _ _ => some h
  | .tex2d_new_with_size _ _ h _ => some h
  | .tex_new_with_size _ h _ _ => some h
  | _ => none

/-- The dummy white texture handle meta_create_texture_material builds its
template from: the result of meta_create_color_texture_4ub on opaque white
with COGL_TEXTURE_NONE flags. -/
def whiteDummyTexture (env : CoglEnv) : Nat :=
  (meta_create_color_texture_4ub env 0xff 0xff 0xff 0xff 0).texture

/-- Well-formedness of the material bookkeeping: a cached template handle
was allocated below the fresh-handle counter and its layer 0 is the dummy
white texture.  Holds of the initial state (no template) and is preserved
by meta_create_texture_material. -/
def MatStateWF (env : CoglEnv) (s : CoglUtilsState) : Prop :=
  ∀ t, s.texture_material_template = some t →
    t < s.nextHandle ∧ s.matLayer0 t = some (whiteDummyTexture env)

/-- The globals as the process starts: NULL context, FALSE npot, zero
screen sizes, COGL_INVALID_HANDLE template; counter starts at 1 so handle 0
keeps standing for NULL. -/
def initState : CoglUtilsState :=
  { cogl_context := none
    supports_npot := false
    screen_width := 0
    screen_height := 0
    texture_material_template := none
    nextHandle := 1
    matLayer0 := fun _ => none }

/-- A concrete environment for witnesses: a 1920x1080 screen, NPOT
supported, all constructors succeeding with distinct handles. -/
def testEnv : CoglEnv :=
  { backendCtx := 7
    hasNPOT := fun _ => true
    gdkWidth := 1920
    gdkHeight := 1080
    premultiply := fun c => c
    coglPre118 := false
    tex2dFromData := fun _ _ _ _ _ _ => (11, none)
    texFromData := fun _ _ _ _ _ _ _ => 12
    tex2dFromFile := fun _ _ => (13, none)
    texFromFile := fun _ _ _ => (14, none)
    tex2dWithSize := fun _ _ _ => 15
    texWithSize := fun _ _ _ _ => 16 }

/-- A state whose two caches are populated: context 7 with NPOT support,
screen cache 1920x1080. -/
def cachedState : CoglUtilsState :=
  { cogl_context := some 7
    supports_npot := true
    screen_width := 1920
    screen_height := 1080
    texture_material_template := none
    nextHandle := 1
    matLayer0 := fun _ => none }

/-- clamp_sizes touches only the screen-cache fields of the state. -/
theorem clamp_sizes_state_npot_fields (env : CoglEnv) (s : CoglUtilsState) (w h : Int) :
    (clamp_sizes env s w h).state.cogl_context = s.cogl_context ∧
    (clamp_sizes env s w h).state.supports_npot = s.supports_npot ∧
    (clamp_sizes env s w h).state.texture_material_template = s.texture_material_template ∧
    (clamp_sizes env s w h).state.nextHandle = s.nextHandle := by
  by_cases hs : s.screen_width = 0 <;> simp [clamp_sizes, hs]

/-- hardware_supports_npot_sizes touches only the context-cache fields. -/
theorem npot_state_screen_fields (env : CoglEnv) (s : CoglUtilsState) :
    (hardware_supports_npot_sizes env s).state.screen_width = s.screen_width ∧
    (hardware_supports_npot_sizes env s).state.screen_height = s.screen_height ∧
    (hardware_supports_npot_sizes env s).state.texture_material_template
        = s.texture_material_template ∧
    (hardware_supports_npot_sizes env s).state.nextHandle = s.nextHandle := by
  cases hc : s.cogl_context <;> simp [hardware_supports_npot_sizes, hc]

/-- The dispatch boolean depends only on the two context-cache fields. -/
theorem npot_supported_congr (env : CoglEnv) (s₁ s₂ : CoglUtilsState)
    (hc : s₁.cogl_context = s₂.cogl_context)
    (hn : s₁.supports_npot = s₂.supports_npot) :
    (hardware_supports_npot_sizes env s₁).supported
        = (hardware_supports_npot_sizes env s₂).supported := by
  cases h₁ : s₁.cogl_context <;> cases h₂ : s₂.cogl_context <;>
    simp_all [hardware_supports_npot_sizes]

/-- After clamp_sizes, the dispatch boolean is unchanged. -/
theorem npot_supported_after_clamp (env : CoglEnv) (s : CoglUtilsState) (w h : Int) :
    (hardware_supports_npot_sizes env (clamp_sizes env s w h).state).supported
        = (hardware_supports_npot_sizes env s).supported := by
  exact npot_supported_congr env _ s (clamp_sizes_state_npot_fields env s w h).1
    (clamp_sizes_state_npot_fields env s w h).2.1

/-- A state with only the screen-size cache populated at 1920x1080. -/
def state1920 : CoglUtilsState :=
  { initState with screen_width := 1920, screen_height := 1080 }

/-- C2: after the screen-size cache holds W and H (populated, so W is not
0), clamp_sizes replaces the requested width by min(width, 2W) and the
height by min(height, 2H), leaving the globals unchanged and making no
external call; with a 1920x1080 cache, (10000, 10000) becomes (3840, 2160)
and (800, 600) is unchanged. -/
theorem C2_clamp_to_twice_screen (env : CoglEnv) (s : CoglUtilsState)
    (w h W H : Int) (hw : s.screen_width = W) (hh : s.screen_height = H)
    (hW : W ≠ 0) :
    (clamp_sizes env s w h).width = min w (2 * W) ∧
    (clamp_sizes env s w h).height = min h (2 * H) ∧
    (clamp_sizes env s w h).state = s ∧
    (clamp_sizes env s w h).calls = [] ∧
    (clamp_sizes env state1920 10000 10000).width = 3840 ∧
    (clamp_sizes env state1920 10000 10000).height = 2160 ∧
    (clamp_sizes env state1920 800 600).width = 800 ∧
    (clamp_sizes env state1920 800 600).height = 600 := by
  subst hw hh
  refine ⟨?_, ?_, ?_, ?_, ?_, ?_, ?_, ?_⟩ <;>
    simp [clamp_sizes, hW, state1920, initState, mul_comm]

/-- C2 witness: the theorem applied at the concrete 1920x1080 cached state
with a (10000, 10000) request. -/
theorem C2_clamp_to_twice_screen_witness :
    (state1920.screen_width = 1920 ∧ state1920.screen_height = 1080 ∧
       (1920 : Int) ≠ 0) ∧
    ((clamp_sizes testEnv state1920 10000 10000).width = min 10000 (2 * 1920) ∧
     (clamp_sizes testEnv state1920 10000 10000).height = min 10000 (2 * 1080) ∧
     (clamp_sizes testEnv state1920 10000 10000).state = state1920 ∧
     (clamp_sizes testEnv state1920 10000 10000).calls = [] ∧
     (clamp_sizes testEnv state1920 10000 10000).width = 3840 ∧
     (clamp_sizes testEnv state1920 10000 10000).height = 2160 ∧
     (clamp_sizes testEnv state1920 800 600).width = 800 ∧
     (clamp_sizes testEnv state1920 800 600).height = 600) :=
  ⟨⟨by decide, by decide, by decide⟩,
   C2_clamp_to_twice_screen testEnv state1920 10000 10000 1920 1080
     (by decide) (by decide) (by decide)⟩

/-- C3: once a cache is populated it is sticky.  If the context cache is
populated, hardware_supports_npot_sizes returns the cached boolean with the
state unchanged and no backend query; if the screen cache is populated,
clamp_sizes clamps against the cached values with the state unchanged and
no screen query.  Moreover any first capability query leaves a populated
cache, so an immediate repeat returns the same boolean with no further
backend query; and after a first clamp that found a real screen, a repeat
clamp returns the same sizes with no further screen query. -/
theorem C3_caches_are_sticky (env : CoglEnv) (s : CoglUtilsState) (w h : Int) :
    (∀ c, s.cogl_context = some c →
       hardware_supports_npot_sizes env s
           = { supported := s.supports_npot, state := s, calls := [] }) ∧
    (s.screen_width ≠ 0 →
       clamp_sizes env s w h
           = { width := min w (s.screen_width * 2)
               height := min h (s.screen_height * 2)
               state := s, calls := [] }) ∧
    (hardware_supports_npot_sizes env (hardware_supports_npot_sizes env s).state
        = { supported := (hardware_supports_npot_sizes env s).supported
            state := (hardware_supports_npot_sizes env s).state
            calls := [] }) ∧
    (env.gdkWidth ≠ 0 →
       clamp_sizes env (clamp_sizes env s w h).state w h
           = { width := (clamp_sizes env s w h).width
               height := (clamp_sizes env s w h).height
               state := (clamp_sizes env s w h).state
               calls := [] }) := by
  refine ⟨?_, ?_, ?_, ?_⟩
  · intro c hc
    simp [hardware_supports_npot_sizes, hc]
  · intro hs
    simp [clamp_sizes, hs]
  · cases hc : s.cogl_context <;>
      simp [hardware_supports_npot_sizes, hc]
  · intro hg
    by_cases hs : s.screen_width = 0 <;>
      simp [clamp_sizes, hs, hg]

/-- C3 witness: the theorem applied at the populated cachedState. -/
theorem C3_caches_are_sticky_witness :
    hardware_supports_npot_sizes testEnv cachedState
        = { supported := cachedState.supports_npot, state := cachedState, calls := [] } ∧
    clamp_sizes testEnv cachedState 500 400
        = { width := min 500 (cachedState.screen_width * 2)
            height := min 400 (cachedState.screen_height * 2)
            state := cachedState, calls := [] } :=
  ⟨(C3_caches_are_sticky testEnv cachedState 500 400).1 7 (by decide),
   (C3_caches_are_sticky testEnv cachedState 500 400).2.1 (by decide)⟩

/-- C7: if clamp_sizes first runs with an empty screen cache and the screen
query reports width 0 and height 0, the cached sizes remain 0 and the clamp
of any nonnegative request degenerates to (0, 0); the cache stays
unpopulated, so an immediately repeated call degenerates the same way. -/
theorem C7_zero_screen_degenerates (env : CoglEnv) (s : CoglUtilsState)
    (w h : Int) (hs : s.screen_width = 0)
    (hgw : env.gdkWidth = 0) (hgh : env.gdkHeight = 0)
    (hw : 0 ≤ w) (hh : 0 ≤ h) :
    (clamp_sizes env s w h).width = 0 ∧
    (clamp_sizes env s w h).height = 0 ∧
    (clamp_sizes env s w h).state.screen_width = 0 ∧
    (clamp_sizes env s w h).state.screen_height = 0 ∧
    (clamp_sizes env (clamp_sizes env s w h).state w h).width = 0 ∧
    (clamp_sizes env (clamp_sizes env s w h).state w h).height = 0 ∧
    (clamp_sizes env (clamp_sizes env s w h).state w h).state.screen_width = 0 := by
  refine ⟨?_, ?_, ?_, ?_, ?_, ?_, ?_⟩ <;>
    simp [clamp_sizes, hs, hgw, hgh, hw, hh, min_eq_right]

/-- C7 witness: a no-screen environment with a (10000, 10000) request. -/
theorem C7_zero_screen_degenerates_witness :
    (initState.screen_width = 0 ∧
       ({ testEnv with gdkWidth := 0, gdkHeight := 0 } : CoglEnv).gdkWidth = 0 ∧
       ({ testEnv with gdkWidth := 0, gdkHeight := 0 } : CoglEnv).gdkHeight = 0 ∧
       (0 : Int) ≤ 10000 ∧ (0 : Int) ≤ 10000) ∧
    ((clamp_sizes { testEnv with gdkWidth := 0, gdkHeight := 0 } initState
        10000 10000).width = 0 ∧
     (clamp_sizes { testEnv with gdkWidth := 0, gdkHeight := 0 } initState
        10000 10000).height = 0 ∧
     (clamp_sizes { testEnv with gdkWidth := 0, gdkHeight := 0 } initState
        10000 10000).state.screen_width = 0 ∧
     (clamp_sizes { testEnv with gdkWidth := 0, gdkHeight := 0 } initState
        10000 10000).state.screen_height = 0 ∧
     (clamp_sizes { testEnv with gdkWidth := 0, gdkHeight := 0 }
        (clamp_sizes { testEnv with gdkWidth := 0, gdkHeight := 0 } initState
           10000 10000).state 10000 10000).width = 0 ∧
     (clamp_sizes { testEnv with gdkWidth := 0, gdkHeight := 0 }
        (clamp_sizes { testEnv with gdkWidth := 0, gdkHeight := 0 } initState
           10000 10000).state 10000 10000).height = 0 ∧
     (clamp_sizes { testEnv with gdkWidth := 0, gdkHeight := 0 }
        (clamp_sizes { testEnv with gdkWidth := 0, gdkHeight := 0 } initState
           10000 10000).state 10000 10000).state.screen_width = 0) :=
  ⟨⟨by decide, by decide, by decide, by decide, by decide⟩,
   C7_zero_screen_degenerates { testEnv with gdkWidth := 0, gdkHeight := 0 }
     initState 10000 10000 (by decide) (by decide) (by decide)
     (by decide) (by decide)⟩

/-- The trace entries produced by the error check are never constructors. -/
@[simp]
theorem filter_error_calls (o : Option String) :
    (errorCalls o).filter ExtCall.isTexConstructor = [] := by
  cases o <;> simp [errorCalls, ExtCall.isTexConstructor]

/-- C1: each of the three texture-creation entry points dispatches on the
cached NPOT capability: when it reports support, the one texture
constructor invoked is the newer 2D constructor on the cached context (the
from-data variant passing the explicit pixel format, and, before Cogl 1.18,
an extra explicit COGL_PIXEL_FORMAT_ANY internal format for the data/file
variants and CLUTTER_CAIRO_FORMAT_ARGB32 for the size variant); otherwise
it is the legacy constructor carrying the caller's flags and internal
format (the from-data variant also carrying the pixel format).  In both
cases the wrapper returns exactly the handle that constructor produced. -/
theorem C1_capability_dispatch (env : CoglEnv) (s : CoglUtilsState)
    (w h : Int) (flags : Nat) (fmt ifmt : CoglPixelFormat) (rs : Int)
    (data : List Nat) (filename : String) :
    (let c := clamp_sizes env s w h
     let q := hardware_supports_npot_sizes env c.state
     let ctx := q.state.cogl_context.getD 0
     let r := meta_cogl_texture_new_from_data_wrapper env s w h flags fmt ifmt rs data
     if q.supported then
       r.calls.filter ExtCall.isTexConstructor
           = [ExtCall.tex2d_new_from_data ctx c.width c.height fmt
                (if env.coglPre118 then some CoglPixelFormat.ANY else none) rs data] ∧
       r.texture = (env.tex2dFromData ctx c.width c.height fmt rs data).1
     else
       r.calls.filter ExtCall.isTexConstructor
           = [ExtCall.tex_new_from_data c.width c.height flags fmt ifmt rs data] ∧
       r.texture = env.texFromData c.width c.height flags fmt ifmt rs data) ∧
    (let q := hardware_supports_npot_sizes env s
     let ctx := q.state.cogl_context.getD 0
     let r := meta_cogl_texture_new_from_file_wrapper env s filename flags ifmt
     if q.supported then
       r.calls.filter ExtCall.isTexConstructor
           = [ExtCall.tex2d_new_from_file ctx filename
                (if env.coglPre118 then some CoglPixelFormat.ANY else none)] ∧
       r.texture = (env.tex2dFromFile ctx filename).1
     else
       r.calls.filter ExtCall.isTexConstructor
           = [ExtCall.tex_new_from_file filename flags ifmt] ∧
       r.texture = (env.texFromFile filename flags ifmt).1) ∧
    (let c := clamp_sizes env s w h
     let q := hardware_supports_npot_sizes env c.state
     let ctx := q.state.cogl_context.getD 0
     let r := meta_cogl_texture_new_with_size_wrapper env s w h flags ifmt
     if q.supported then
       r.calls.filter ExtCall.isTexConstructor
           = [ExtCall.tex2d_new_with_size ctx c.width c.height
                (if env.coglPre118 then some CoglPixelFormat.CAIRO_ARGB32 else none)] ∧
       r.texture = env.tex2dWithSize ctx c.width c.height
     else
       r.calls.filter ExtCall.isTexConstructor
           = [ExtCall.tex_new_with_size c.width c.height flags ifmt] ∧
       r.texture = env.texWithSize c.width c.height flags ifmt) := by
  refine ⟨?_, ?_, ?_⟩
  · by_cases hn : (hardware_supports_npot_sizes env (clamp_sizes env s w h).state).supported <;>
      by_cases hs : s.screen_width = 0 <;> cases hc : s.cogl_context <;>
      simp_all [meta_cogl_texture_new_from_data_wrapper, hardware_supports_npot_sizes,
        clamp_sizes, ExtCall.isTexConstructor, filter_error_calls]
  · by_cases hn : (hardware_supports_npot_sizes env s).supported <;>
      cases hc : s.cogl_context <;>
      simp_all [meta_cogl_texture_new_from_file_wrapper, hardware_supports_npot_sizes,
        ExtCall.isTexConstructor, filter_error_calls]
  · by_cases hn : (hardware_supports_npot_sizes env (clamp_sizes env s w h).state).supported <;>
      by_cases hs : s.screen_width = 0 <;> cases hc : s.cogl_context <;>
      simp_all [meta_cogl_texture_new_with_size_wrapper, hardware_supports_npot_sizes,
        clamp_sizes, ExtCall.isTexConstructor]

/-- Membership in the trace entries produced by the error check. -/
@[simp]
theorem mem_error_calls (c : ExtCall) (o : Option String) :
    c ∈ errorCalls o ↔ ∃ msg, o = some msg ∧ c = ExtCall.error_free msg := by
  cases o <;> simp [errorCalls]

set_option maxHeartbeats 2000000 in
/-- C8: only the raw-data and dimensions-only entry points clamp.  The
from-file wrapper performs no screen query and leaves the screen cache
untouched, while the from-data and with-size wrappers end with the screen
cache exactly as clamp_sizes leaves it, perform the screen query whenever
the cache was empty, and hand the clamped width/height to whichever
constructor they invoke. -/
theorem C8_clamp_only_data_and_size (env : CoglEnv) (s : CoglUtilsState)
    (w h rs : Int) (flags : Nat) (fmt ifmt : CoglPixelFormat)
    (data : List Nat) (filename : String) :
    (let r := meta_cogl_texture_new_from_file_wrapper env s filename flags ifmt
     ExtCall.screen_query ∉ r.calls ∧
     r.state.screen_width = s.screen_width ∧
     r.state.screen_height = s.screen_height) ∧
    (let c := clamp_sizes env s w h
     let r := meta_cogl_texture_new_from_data_wrapper env s w h flags fmt ifmt rs data
     r.state.screen_width = c.state.screen_width ∧
     r.state.screen_height = c.state.screen_height ∧
     (s.screen_width = 0 → ExtCall.screen_query ∈ r.calls) ∧
     ∀ call ∈ r.calls, call.isTexConstructor = true →
       call.texWidth = some c.width ∧ call.texHeight = some c.height) ∧
    (let c := clamp_sizes env s w h
     let r := meta_cogl_texture_new_with_size_wrapper env s w h flags ifmt
     r.state.screen_width = c.state.screen_width ∧
     r.state.screen_height = c.state.screen_height ∧
     (s.screen_width = 0 → ExtCall.screen_query ∈ r.calls) ∧
     ∀ call ∈ r.calls, call.isTexConstructor = true →
       call.texWidth = some c.width ∧ call.texHeight = some c.height) := by
  refine ⟨?_, ?_, ?_⟩
  · by_cases hn : (hardware_supports_npot_sizes env s).supported <;>
      cases hc : s.cogl_context <;>
      simp_all [meta_cogl_texture_new_from_file_wrapper, hardware_supports_npot_sizes,
        mem_error_calls]
  · by_cases hn : (hardware_supports_npot_sizes env (clamp_sizes env s w h).state).supported <;>
      by_cases hs : s.screen_width = 0 <;> cases hc : s.cogl_context <;>
      simp_all [meta_cogl_texture_new_from_data_wrapper, hardware_supports_npot_sizes,
        clamp_sizes, mem_error_calls, ExtCall.isTexConstructor, ExtCall.texWidth,
        ExtCall.texHeight]
  · by_cases hn : (hardware_supports_npot_sizes env (clamp_sizes env s w h).state).supported <;>
      by_cases hs : s.screen_width = 0 <;> cases hc : s.cogl_context <;>
      simp_all [meta_cogl_texture_new_with_size_wrapper, hardware_supports_npot_sizes,
        clamp_sizes, ExtCall.isTexConstructor, ExtCall.texWidth, ExtCall.texHeight]

def sampleFile : String := "background.png"

/-- C8 witness: at the initial state the from-file wrapper makes no screen
query, while the from-data wrapper (empty screen cache) does. -/
theorem C8_clamp_only_data_and_size_witness :
    ExtCall.screen_query ∉
      (meta_cogl_texture_new_from_file_wrapper testEnv initState sampleFile 0
         CoglPixelFormat.ANY).calls ∧
    ExtCall.screen_query ∈
      (meta_cogl_texture_new_from_data_wrapper testEnv initState 64 64 0
         CoglPixelFormat.RGBA_8888_PRE CoglPixelFormat.ANY 256 []).calls :=
  ⟨(C8_clamp_only_data_and_size testEnv initState 64 64 256 0
      CoglPixelFormat.RGBA_8888_PRE CoglPixelFormat.ANY [] sampleFile).1.1,
   (C8_clamp_only_data_and_size testEnv initState 64 64 256 0
      CoglPixelFormat.RGBA_8888_PRE CoglPixelFormat.ANY [] sampleFile).2.1.2.2.1
     (by decide)⟩

/-- C9: when the capability query reports NPOT support, the from-data and
with-size wrappers ignore their flags and internal_format arguments
entirely: two calls differing only in those arguments produce identical
results (same handle, same state, same external calls, same log). -/
theorem C9_flags_internal_format_independence (env : CoglEnv) (s : CoglUtilsState)
    (w h rs : Int) (fmt : CoglPixelFormat) (data : List Nat)
    (flags₁ flags₂ : Nat) (ifmt₁ ifmt₂ : CoglPixelFormat)
    (hn : (hardware_supports_npot_sizes env s).supported = true) :
    meta_cogl_texture_new_from_data_wrapper env s w h flags₁ fmt ifmt₁ rs data
        = meta_cogl_texture_new_from_data_wrapper env s w h flags₂ fmt ifmt₂ rs data ∧
    meta_cogl_texture_new_with_size_wrapper env s w h flags₁ ifmt₁
        = meta_cogl_texture_new_with_size_wrapper env s w h flags₂ ifmt₂ := by
  have hn2 : (hardware_supports_npot_sizes env (clamp_sizes env s w h).state).supported
      = true := by
    rw [npot_supported_after_clamp]; exact hn
  constructor <;>
    simp [meta_cogl_texture_new_from_data_wrapper,
      meta_cogl_texture_new_with_size_wrapper, hn2]

/-- C9 witness: concrete NPOT-supporting environment, two flag/format
choices. -/
theorem C9_flags_internal_format_independence_witness :
    (hardware_supports_npot_sizes testEnv initState).supported = true ∧
    (meta_cogl_texture_new_from_data_wrapper testEnv initState 64 64 0
         CoglPixelFormat.RGBA_8888_PRE CoglPixelFormat.ANY 256 []
       = meta_cogl_texture_new_from_data_wrapper testEnv initState 64 64 3
         CoglPixelFormat.RGBA_8888_PRE (CoglPixelFormat.other 5) 256 [] ∧
     meta_cogl_texture_new_with_size_wrapper testEnv initState 64 64 0
         CoglPixelFormat.ANY
       = meta_cogl_texture_new_with_size_wrapper testEnv initState 64 64 3
         (CoglPixelFormat.other 5)) :=
  ⟨by decide,
   C9_flags_internal_format_independence testEnv initState 64 64 256
     CoglPixelFormat.RGBA_8888_PRE [] 0 3 CoglPixelFormat.ANY
     (CoglPixelFormat.other 5) (by decide)⟩

/-- C4: meta_create_color_texture_4ub converts the 4ub color to
premultiplied form, packs the premultiplied channel bytes into a 4-byte
pixel in RGBA order, and requests via cogl_texture_new_from_data a 1x1
texture from that pixel with format COGL_PIXEL_FORMAT_RGBA_8888_PRE and
rowstride 4; in particular for input (255, 0, 0, 255) the pixel handed to
the constructor is exactly the premultiplied encoding of that color. -/
theorem C4_color_texture_premultiplied (env : CoglEnv) (r g b a flags : Nat) :
    (let p := env.premultiply { red := r, green := g, blue := b, alpha := a }
     meta_create_color_texture_4ub env r g b a flags
       = { texture := env.texFromData 1 1 flags CoglPixelFormat.RGBA_8888_PRE
             CoglPixelFormat.ANY 4 [p.red, p.green, p.blue, p.alpha]
           calls := [ExtCall.tex_new_from_data 1 1 flags CoglPixelFormat.RGBA_8888_PRE
             CoglPixelFormat.ANY 4 [p.red, p.green, p.blue, p.alpha]] }) ∧
    (let pr := env.premultiply { red := 255, green := 0, blue := 0, alpha := 255 }
     (meta_create_color_texture_4ub env 255 0 0 255 flags).calls
       = [ExtCall.tex_new_from_data 1 1 flags CoglPixelFormat.RGBA_8888_PRE
            CoglPixelFormat.ANY 4 [pr.red, pr.green, pr.blue, pr.alpha]]) := by
  constructor <;> rfl

/-- C10: meta_create_color_texture_4ub always calls the legacy unsized
constructor cogl_texture_new_from_data directly with fixed size 1x1: it is
the only constructor in the trace, there is no capability (backend) query,
no screen query (hence no clamping), and every constructor call it makes
has width and height 1. -/
theorem C10_color_texture_legacy_only (env : CoglEnv) (r g b a flags : Nat) :
    (let res := meta_create_color_texture_4ub env r g b a flags
     let p := env.premultiply { red := r, green := g, blue := b, alpha := a }
     res.calls.filter ExtCall.isTexConstructor
         = [ExtCall.tex_new_from_data 1 1 flags CoglPixelFormat.RGBA_8888_PRE
              CoglPixelFormat.ANY 4 [p.red, p.green, p.blue, p.alpha]] ∧
     ExtCall.backend_query ∉ res.calls ∧
     ExtCall.screen_query ∉ res.calls ∧
     (∀ call ∈ res.calls, call.texWidth = some 1 ∧ call.texHeight = some 1) ∧
     res.texture = env.texFromData 1 1 flags CoglPixelFormat.RGBA_8888_PRE
         CoglPixelFormat.ANY 4 [p.red, p.green, p.blue, p.alpha]) := by
  simp [meta_create_color_texture_4ub, ExtCall.isTexConstructor,
    ExtCall.texWidth, ExtCall.texHeight]

/-- C10 witness: the theorem at a concrete color and environment. -/
theorem C10_color_texture_legacy_only_witness :
    (meta_create_color_texture_4ub testEnv 10 20 30 40 0).calls.filter
        ExtCall.isTexConstructor
      = [ExtCall.tex_new_from_data 1 1 0 CoglPixelFormat.RGBA_8888_PRE
           CoglPixelFormat.ANY 4 [10, 20, 30, 40]] ∧
    ExtCall.backend_query ∉ (meta_create_color_texture_4ub testEnv 10 20 30 40 0).calls ∧
    ExtCall.screen_query ∉ (meta_create_color_texture_4ub testEnv 10 20 30 40 0).calls ∧
    (∀ call ∈ (meta_create_color_texture_4ub testEnv 10 20 30 40 0).calls,
       call.texWidth = some 1 ∧ call.texHeight = some 1) ∧
    (meta_create_color_texture_4ub testEnv 10 20 30 40 0).texture = 12 :=
  C10_color_texture_legacy_only testEnv 10 20 30 40 0

/-- C5: meta_create_texture_material builds the template material at most
once per process: when the static template is already cached it performs no
cogl_material_new, and on the first call it performs exactly one and caches
the result.  Each invocation returns a material handle distinct from the
template and from every previously allocated handle, and the fresh-handle
counter stays above the returned handle, so later calls stay distinct.
Layer 0 of the returned copy is the supplied source texture when one is
given, and the dummy white 1x1 texture when called with
COGL_INVALID_HANDLE. -/
theorem C5_material_template (env : CoglEnv) (s : CoglUtilsState) (src : Nat)
    (hwf : MatStateWF env s) :
    (let r := meta_create_texture_material env s src
     (∀ t, s.texture_material_template = some t →
        r.state.texture_material_template = some t ∧
        ExtCall.material_new ∉ r.calls) ∧
     (s.texture_material_template = none →
        r.state.texture_material_template = some s.nextHandle ∧
        r.calls.count ExtCall.material_new = 1) ∧
     (∀ t, r.state.texture_material_template = some t → r.material ≠ t) ∧
     (∀ p, p < s.nextHandle → r.material ≠ p) ∧
     s.nextHandle ≤ r.state.nextHandle ∧
     r.material < r.state.nextHandle ∧
     MatStateWF env r.state ∧
     (src ≠ 0 → r.state.matLayer0 r.material = some src) ∧
     (src = 0 → r.state.matLayer0 r.material = some (whiteDummyTexture env))) := by
  cases ht : s.texture_material_template with
  | none =>
      by_cases hsrc : src = 0 <;>
        simp_all [meta_create_texture_material, MatStateWF, whiteDummyTexture,
          meta_create_color_texture_4ub, ExtCall.material_new] <;>
        constructor <;> omega
  | some t =>
      have hlt := (hwf t ht).1
      have hlay := (hwf t ht).2
      by_cases hsrc : src = 0 <;>
        simp_all [meta_create_texture_material, MatStateWF, whiteDummyTexture,
          meta_create_color_texture_4ub] <;>
        exact ⟨by omega, fun p hp => by omega, by omega,
          fun he => absurd he (by omega)⟩

/-- C5 witness: first call at the initial state with no source texture. -/
theorem C5_material_template_witness :
    MatStateWF testEnv initState ∧
    (let r := meta_create_texture_material testEnv initState 0
     (∀ t, initState.texture_material_template = some t →
        r.state.texture_material_template = some t ∧
        ExtCall.material_new ∉ r.calls) ∧
     (initState.texture_material_template = none →
        r.state.texture_material_template = some initState.nextHandle ∧
        r.calls.count ExtCall.material_new = 1) ∧
     (∀ t, r.state.texture_material_template = some t → r.material ≠ t) ∧
     (∀ p, p < initState.nextHandle → r.material ≠ p) ∧
     initState.nextHandle ≤ r.state.nextHandle ∧
     r.material < r.state.nextHandle ∧
     MatStateWF testEnv r.state ∧
     ((0 : Nat) ≠ 0 → r.state.matLayer0 r.material = some 0) ∧
     ((0 : Nat) = 0 →
        r.state.matLayer0 r.material = some (whiteDummyTexture testEnv))) := by
  have hwf : MatStateWF testEnv initState := by
    intro t ht
    simp [initState] at ht
  exact ⟨hwf, C5_material_template testEnv initState 0 hwf⟩

def errDecode : String := "decode failed"

/-- An environment whose GPU lacks NPOT support and whose legacy file
loader fails with an error object. -/
def fileErrEnv : CoglEnv :=
  { testEnv with
      hasNPOT := fun _ => false
      texFromFile := fun _ _ _ => (0, some errDecode) }

/-- C6 counterexample: on the legacy (non-NPOT) path of the from-file
wrapper, the constructor invoked is the legacy cogl_texture_new_from_file,
and yet a library error object is surfaced there too: its message is
logged and the object freed, contradicting the claim that an error object
appears only on the newer-path constructors and that the legacy paths
yield a null handle with no detail. -/
theorem C6_counterexample :
    (meta_cogl_texture_new_from_file_wrapper fileErrEnv initState sampleFile 0
        CoglPixelFormat.ANY).calls
      = [ExtCall.backend_query,
         ExtCall.tex_new_from_file sampleFile 0 CoglPixelFormat.ANY,
         ExtCall.error_free errDecode] ∧
    (meta_cogl_texture_new_from_file_wrapper fileErrEnv initState sampleFile 0
        CoglPixelFormat.ANY).log
      = [msg_from_file ++ errDecode] ∧
    (meta_cogl_texture_new_from_file_wrapper fileErrEnv initState sampleFile 0
        CoglPixelFormat.ANY).log ≠ [] := by
  refine ⟨rfl, rfl, ?_⟩
  simp [meta_cogl_texture_new_from_file_wrapper, fileErrEnv, testEnv, initState,
    hardware_supports_npot_sizes, errorLog]

set_option maxHeartbeats 2000000 in
/-- C6 amended: on a failed texture creation this layer logs the library
error message (meta_verbose), frees the error object, and returns whatever
handle the constructor produced.  A library error object is surfaced on
the newer-path constructors and also on the legacy file-path constructor;
the legacy data-path, both with-size paths, and the color and material
helpers produce no error object and no log detail. -/
theorem C6_error_surfacing (env : CoglEnv) (s : CoglUtilsState)
    (w h rs : Int) (flags : Nat) (fmt ifmt : CoglPixelFormat) (data : List Nat)
    (filename : String) (red green blue alpha src : Nat) :
    (let c := clamp_sizes env s w h
     let q := hardware_supports_npot_sizes env c.state
     let ctx := q.state.cogl_context.getD 0
     let r := meta_cogl_texture_new_from_data_wrapper env s w h flags fmt ifmt rs data
     (q.supported = true →
        ∀ t msg, env.tex2dFromData ctx c.width c.height fmt rs data = (t, some msg) →
          r.log = [msg_from_data ++ msg] ∧
          ExtCall.error_free msg ∈ r.calls ∧
          r.texture = t) ∧
     (q.supported = false →
        r.log = [] ∧ ∀ m, ExtCall.error_free m ∉ r.calls)) ∧
    (let q := hardware_supports_npot_sizes env s
     let ctx := q.state.cogl_context.getD 0
     let r := meta_cogl_texture_new_from_file_wrapper env s filename flags ifmt
     ∀ t msg,
       (if q.supported then env.tex2dFromFile ctx filename
        else env.texFromFile filename flags ifmt) = (t, some msg) →
         r.log = [msg_from_file ++ msg] ∧
         ExtCall.error_free msg ∈ r.calls ∧
         r.texture = t) ∧
    (let r := meta_cogl_texture_new_with_size_wrapper env s w h flags ifmt
     r.log = [] ∧ ∀ m, ExtCall.error_free m ∉ r.calls) ∧
    (∀ m, ExtCall.error_free m ∉
       (meta_create_color_texture_4ub env red green blue alpha flags).calls) ∧
    (∀ m, ExtCall.error_free m ∉
       (meta_create_texture_material env s src).calls) := by
  refine ⟨⟨?_, ?_⟩, fun t msg hres => ?_, ⟨?_, ?_⟩, ?_, ?_⟩
  · intro hn t msg hres
    by_cases hs : s.screen_width = 0 <;> cases hc : s.cogl_context <;>
      simp_all [meta_cogl_texture_new_from_data_wrapper, hardware_supports_npot_sizes,
        clamp_sizes, errorCalls, errorLog]
  · intro hn
    by_cases hs : s.screen_width = 0 <;> cases hc : s.cogl_context <;>
      simp_all [meta_cogl_texture_new_from_data_wrapper, hardware_supports_npot_sizes,
        clamp_sizes]
  · by_cases hn : (hardware_supports_npot_sizes env s).supported <;>
      cases hc : s.cogl_context <;>
      simp_all [meta_cogl_texture_new_from_file_wrapper, hardware_supports_npot_sizes,
        errorCalls, errorLog]
  · by_cases hn : (hardware_supports_npot_sizes env (clamp_sizes env s w h).state).supported <;>
      by_cases hs : s.screen_width = 0 <;> cases hc : s.cogl_context <;>
      simp_all [meta_cogl_texture_new_with_size_wrapper, hardware_supports_npot_sizes,
        clamp_sizes]
  · by_cases hn : (hardware_supports_npot_sizes env (clamp_sizes env s w h).state).supported <;>
      by_cases hs : s.screen_width = 0 <;> cases hc : s.cogl_context <;>
      simp_all [meta_cogl_texture_new_with_size_wrapper, hardware_supports_npot_sizes,
        clamp_sizes]
  · simp [meta_create_color_texture_4ub]
  · cases ht : s.texture_material_template <;> by_cases hsrc : src = 0 <;>
      simp_all [meta_create_texture_material, meta_create_color_texture_4ub]

/-- An NPOT-supporting environment whose newer from-data constructor fails
with an error object. -/
def dataErrEnv : CoglEnv :=
  { testEnv with tex2dFromData := fun _ _ _ _ _ _ => (0, some errDecode) }

/-- C6 witness: a failing newer-path from-data creation logs the message,
frees the error object, and returns the constructor's null handle. -/
theorem C6_error_surfacing_witness :
    ((hardware_supports_npot_sizes dataErrEnv
         (clamp_sizes dataErrEnv initState 64 64).state).supported = true ∧
     dataErrEnv.tex2dFromData
         ((hardware_supports_npot_sizes dataErrEnv
             (clamp_sizes dataErrEnv initState 64 64).state).state.cogl_context.getD 0)
         (clamp_sizes dataErrEnv initState 64 64).width
         (clamp_sizes dataErrEnv initState 64 64).height
         CoglPixelFormat.RGBA_8888_PRE 256 [] = (0, some errDecode)) ∧
    ((meta_cogl_texture_new_from_data_wrapper dataErrEnv initState 64 64 0
        CoglPixelFormat.RGBA_8888_PRE CoglPixelFormat.ANY 256 []).log
        = [msg_from_data ++ errDecode] ∧
     ExtCall.error_free errDecode ∈
       (meta_cogl_texture_new_from_data_wrapper dataErrEnv initState 64 64 0
          CoglPixelFormat.RGBA_8888_PRE CoglPixelFormat.ANY 256 []).calls ∧
     (meta_cogl_texture_new_from_data_wrapper dataErrEnv initState 64 64 0
        CoglPixelFormat.RGBA_8888_PRE CoglPixelFormat.ANY 256 []).texture = 0) :=
  ⟨⟨by decide, by decide⟩,
   (C6_error_surfacing dataErrEnv initState 64 64 256 0 CoglPixelFormat.RGBA_8888_PRE
       CoglPixelFormat.ANY [] sampleFile 1 2 3 4 5).1.1 (by decide) 0 errDecode
     (by decide)⟩
